import Mathlib

/-!
Verification of the rule evaluation engine of the speckle-automate-checker
repository against its natural-language specification.

The Python sources embedded here are `src/rules.py` (property resolution,
value comparison, predicate library), `src/predicates.py` (predicate name
table), and `src/rule_processor.py` (rule grammar validation, the
filter-then-check pipeline, severity resolution and result attachment).

Python runtime values are modelled by the mutual inductive types
`Value`/`VList`/`VDict`: `None`, `bool`, `int`/`float` (merged into one
rational-valued constructor; every numeric computation the engine performs
on the inputs the theorems exercise is exact in ℚ and agrees with CPython
floats), `str`, `list`, `dict`. Speckle `Base` objects and Python dicts
are both modelled by `vDict`: the source treats them identically in
`search_obj` and `get_obj_value` (case-insensitive key match,
`value`-member extraction); the recursive `traverse` skips
underscore-prefixed members as the source's `Base` branch does.
Fallible Python code (raising exceptions) is modelled with
`Except String`; the error strings summarise the Python exception.
Values form trees, so the source's call-scoped `visited` set for cycle
detection is a no-op and is not modelled.
-/

namespace SpeckleChecker

mutual
/-- Model of a Python runtime value as used by the rule engine. -/
inductive Value where
  | vNull : Value
  | vBool (b : Bool) : Value
  | vNum (q : ℚ) : Value
  | vStr (s : String) : Value
  | vList (items : VList) : Value
  | vDict (entries : VDict) : Value
/-- A Python list of values. -/
inductive VList where
  | nil : VList
  | cons (head : Value) (tail : VList) : VList
/-- A Python dict (or Speckle Base object): ordered string-keyed entries. -/
inductive VDict where
  | nil : VDict
  | cons (key : String) (val : Value) (tail : VDict) : VDict
end

open Value

/-- Build a `VDict` from a list of entries (notation convenience only). -/
def VDict.ofList : List (String × Value) → VDict
  | [] => .nil
  | (k, v) :: rest => .cons k v (VDict.ofList rest)

/-- Build a `VList` from a list of values (notation convenience only). -/
def VList.ofList : List Value → VList
  | [] => .nil
  | v :: rest => .cons v (VList.ofList rest)

/-- Number of entries of a `VDict`, as Python `len`. -/
def VDict.size : VDict → Nat
  | .nil => 0
  | .cons _ _ rest => 1 + VDict.size rest

/-- ASCII model of the lowercase mapping used by Python `str.lower` (the
engine only compares ASCII keywords such as WHERE, yes, true). -/
def pyCharLower (c : Char) : Char :=
  if 65 ≤ c.toNat ∧ c.toNat ≤ 90 then Char.ofNat (c.toNat + 32) else c

/-- ASCII model of the uppercase mapping used by Python `str.upper`. -/
def pyCharUpper (c : Char) : Char :=
  if 97 ≤ c.toNat ∧ c.toNat ≤ 122 then Char.ofNat (c.toNat - 32) else c

/-- Model of Python `str.lower` (ASCII). -/
def pyLower (s : String) : String := ⟨s.data.map pyCharLower⟩

/-- Model of Python `str.upper` (ASCII). -/
def pyUpper (s : String) : String := ⟨s.data.map pyCharUpper⟩

/-- ASCII decimal digit test, as Python `str.isdigit` on ASCII text. -/
def isDig (c : Char) : Bool := 48 ≤ c.toNat && c.toNat ≤ 57

/-- ASCII whitespace, the characters Python `str.strip` removes. -/
def isPySpace (c : Char) : Bool :=
  c = ' ' || c = '\t' || c = '\n' || c = '\r' || c = '\x0b' || c = '\x0c'

/-- Model of Python `str.strip()`: remove leading and trailing whitespace. -/
def pyStrip (s : String) : String :=
  ⟨((s.data.dropWhile isPySpace).reverse.dropWhile isPySpace).reverse⟩

/-- Split a character list on a separator character (Python `str.split`
with a one-character separator: `"".split(c)` gives one empty piece). -/
def splitChar (sep : Char) : List Char → List (List Char)
  | [] => [[]]
  | c :: rest =>
      let r := splitChar sep rest
      if c = sep then [] :: r
      else
        match r with
        | [] => [[c]]
        | h :: t => (c :: h) :: t

/-- Python `str.split` with a one-character separator. -/
def strSplitChar (sep : Char) (s : String) : List String :=
  (splitChar sep s.data).map (fun l => (⟨l⟩ : String))

/-- Join strings with `"."`, as `".".join(...)`. -/
def joinWithDot : List String → String
  | [] => ""
  | [x] => x
  | x :: rest => x ++ "." ++ joinWithDot rest

/-- Does the string start with the given character (Python
`str.startswith` with a one-character argument)? -/
def strHeadIs (c : Char) (s : String) : Bool :=
  match s.data with
  | [] => false
  | c2 :: _ => c2 = c

/-- Remove the first occurrence of a character from a list, as Python
`str.replace(ch, "", 1)`. -/
def removeFirst (a : Char) : List Char → List Char
  | [] => []
  | c :: rest => if c = a then rest else c :: removeFirst a rest

/-- Python `str.isdigit` on a character list: nonempty and all digits. -/
def pyIsDigitStr (l : List Char) : Bool := !l.isEmpty && l.all isDig

/-- The numeric-looking test of `compare_values.safe_convert_to_number`:
`val.replace(".", "", 1).replace("-", "", 1).isdigit()`. -/
def digitcheck (s : String) : Bool :=
  pyIsDigitStr (removeFirst '-' (removeFirst '.' s.data))

/-- Numeric value of a list of decimal digit characters. -/
def digitsVal (l : List Char) : Nat :=
  l.foldl (fun acc c => acc * 10 + (c.toNat - 48)) 0

/-- Parse an unsigned decimal mantissa `digits [. digits]` (at least one
digit overall), the mantissa grammar of Python `float()`. -/
def parseUnsignedDec (l : List Char) : Option ℚ :=
  let ip := l.takeWhile isDig
  match l.dropWhile isDig with
  | [] => if ip.isEmpty then none else some ((digitsVal ip : ℚ))
  | '.' :: rest2 =>
      let fp := rest2.takeWhile isDig
      if (rest2.dropWhile isDig).isEmpty then
        if ip.isEmpty ∧ fp.isEmpty then none
        else some ((digitsVal ip : ℚ) + (digitsVal fp : ℚ) / (10 : ℚ) ^ fp.length)
      else none
  | _ => none

/-- Split a character list at the first `e`/`E`, for float exponents. -/
def splitAtExp : List Char → List Char × Option (List Char)
  | [] => ([], none)
  | c :: rest =>
      if c = 'e' ∨ c = 'E' then ([], some rest)
      else
        let p := splitAtExp rest
        (c :: p.1, p.2)

/-- Parse an optionally signed exponent `[+|-] digits`. -/
def parseExpPart (l : List Char) : Option ℤ :=
  let p : Bool × List Char :=
    match l with
    | '-' :: r => (true, r)
    | '+' :: r => (false, r)
    | _ => (false, l)
  if p.2.isEmpty ∨ ¬ p.2.all isDig then none
  else some (if p.1 then -(digitsVal p.2 : ℤ) else (digitsVal p.2 : ℤ))

/-- Model of the Python `float()` builtin on a string: optional surrounding
whitespace, optional sign, decimal mantissa, optional exponent. The
`inf`/`nan` spellings and underscore digit separators accepted by CPython
are not modelled (no rule-engine path the claims exercise feeds them in). -/
def pyFloatParse (s : String) : Option ℚ :=
  let l := (pyStrip s).data
  let p : Bool × List Char :=
    match l with
    | '-' :: r => (true, r)
    | '+' :: r => (false, r)
    | _ => (false, l)
  let me := splitAtExp p.2
  match parseUnsignedDec me.1 with
  | none => none
  | some m =>
      let signed : ℚ := if p.1 then -m else m
      match me.2 with
      | none => some signed
      | some expChars =>
          match parseExpPart expChars with
          | none => none
          | some e => some (signed * (10 : ℚ) ^ e)

/-- Model of the Python `int()` builtin on a string: optional surrounding
whitespace, optional sign, nonempty digit run (underscore separators not
modelled). -/
def pyIntParse (s : String) : Option ℤ :=
  let l := (pyStrip s).data
  let p : Bool × List Char :=
    match l with
    | '-' :: r => (true, r)
    | '+' :: r => (false, r)
    | _ => (false, l)
  if p.2.isEmpty ∨ ¬ p.2.all isDig then none
  else some (if p.1 then -(digitsVal p.2 : ℤ) else (digitsVal p.2 : ℤ))

/-- Truncation toward zero, as Python `int()` applied to a float. -/
def ratTrunc (q : ℚ) : ℤ := if 0 ≤ q then ⌊q⌋ else ⌈q⌉

/-- Model of Python `str()` on engine values. Non-integral rationals are
rendered via `toString`; the engine paths the claims exercise only
stringify strings, so the rendering of other shapes is inessential. -/
def pyStr : Value → String
  | vNull => "None"
  | vBool b => if b then "True" else "False"
  | vNum q => if q.den = 1 then toString q.num else toString q
  | vStr s => s
  | vList _ => "[...]"
  | vDict _ => "{...}"

/-- Python truthiness of an engine value. -/
def pyTruthy : Value → Bool
  | vNull => false
  | vBool b => b
  | vNum q => q ≠ 0
  | vStr s => s ≠ ""
  | vList l => match l with | .nil => false | _ => true
  | vDict d => match d with | .nil => false | _ => true

/-- Numeric reading of a value in Python numeric contexts: Python `bool`
is an `int` subtype, so booleans count as the numbers 0 and 1. -/
def asNum : Value → Option ℚ
  | vBool b => some (if b then 1 else 0)
  | vNum q => some q
  | _ => none

mutual
/-- Structural boolean equality on values (for the `DecidableEq` instance). -/
def beqV : Value → Value → Bool
  | vNull, vNull => true
  | vBool a, vBool b => a == b
  | vNum a, vNum b => a == b
  | vStr a, vStr b => a == b
  | vList a, vList b => beqL a b
  | vDict a, vDict b => beqD a b
  | _, _ => false
/-- Structural boolean equality on value lists. -/
def beqL : VList → VList → Bool
  | .nil, .nil => true
  | .cons x xs, .cons y ys => beqV x y && beqL xs ys
  | _, _ => false
/-- Structural boolean equality on dict entries. -/
def beqD : VDict → VDict → Bool
  | .nil, .nil => true
  | .cons k v t, .cons k2 v2 t2 => k == k2 && beqV v v2 && beqD t t2
  | _, _ => false
end

mutual
theorem beqV_iff : ∀ v1 v2, beqV v1 v2 = true ↔ v1 = v2
  | vNull, v2 => by cases v2 <;> simp [beqV]
  | vBool a, v2 => by cases v2 <;> simp [beqV]
  | vNum a, v2 => by cases v2 <;> simp [beqV]
  | vStr a, v2 => by cases v2 <;> simp [beqV]
  | vList a, v2 => by cases v2 <;> simp [beqV, beqL_iff a]
  | vDict a, v2 => by cases v2 <;> simp [beqV, beqD_iff a]
theorem beqL_iff : ∀ l1 l2, beqL l1 l2 = true ↔ l1 = l2
  | .nil, l2 => by cases l2 <;> simp [beqL]
  | .cons x xs, l2 => by
      cases l2 <;> simp [beqL]
      case cons y ys => rw [beqV_iff x y, beqL_iff xs ys]
theorem beqD_iff : ∀ d1 d2, beqD d1 d2 = true ↔ d1 = d2
  | .nil, d2 => by cases d2 <;> simp [beqD]
  | .cons k v t, d2 => by
      cases d2 <;> simp [beqD]
      case cons k2 v2 t2 =>
        rw [beqV_iff v v2, beqD_iff t t2]
        exact and_assoc
end

instance : DecidableEq Value := fun v1 v2 => decidable_of_iff _ (beqV_iff v1 v2)

instance : DecidableEq VList := fun l1 l2 => decidable_of_iff _ (beqL_iff l1 l2)

instance : DecidableEq VDict := fun d1 d2 => decidable_of_iff _ (beqD_iff d1 d2)

mutual
/-- Model of Python `==` between engine values. Cross-type comparisons are
`False` except between numbers and booleans, which compare numerically.
Python dict equality is key-set based; here entries are compared in order
(no theorem below compares two reordered dicts, and engine dicts come from
a single source ordering). -/
def pyEq : Value → Value → Bool
  | vNull, vNull => true
  | vBool a, vBool b => a == b
  | vBool a, vNum q => (if a then (1 : ℚ) else 0) == q
  | vNum q, vBool b => q == (if b then (1 : ℚ) else 0)
  | vNum a, vNum b => a == b
  | vStr a, vStr b => a == b
  | vList a, vList b => pyEqL a b
  | vDict a, vDict b => pyEqD a b
  | _, _ => false
/-- Python `==` on lists: pointwise. -/
def pyEqL : VList → VList → Bool
  | .nil, .nil => true
  | .cons x xs, .cons y ys => pyEq x y && pyEqL xs ys
  | _, _ => false
/-- Python `==` on dict entries (in entry order, see `pyEq`). -/
def pyEqD : VDict → VDict → Bool
  | .nil, .nil => true
  | .cons k v t, .cons k2 v2 t2 => k == k2 && pyEq v v2 && pyEqD t t2
  | _, _ => false
end

/-! ## Property resolution (`src/rules.py`, class `PropertyRules`) -/

/-- Membership in the source's `PRIMITIVE_TYPES` tuple
(`bool, int, float, str, NoneType`). -/
def isPrimValue : Value → Bool
  | vNull => true
  | vBool _ => true
  | vNum _ => true
  | vStr _ => true
  | _ => false

/-- Source `PropertyRules.convert_revit_boolean`: Yes/No strings become
booleans, everything else is unchanged. -/
def convert_revit_boolean : Value → Value
  | vNull => vNull
  | vBool b => vBool b
  | vStr s =>
      if pyLower s = "yes" then vBool true
      else if pyLower s = "no" then vBool false
      else vStr s
  | v => v

/-- First entry of a dict whose key matches case-insensitively, as the
`key.lower() == current.lower()` loops in source `search_obj`. -/
def dictFindCI : VDict → String → Option Value
  | .nil, _ => none
  | .cons k v rest, target =>
      if pyLower k = pyLower target then some v else dictFindCI rest target

/-- Exact-key lookup, as Python `"value" in obj` / `hasattr(obj, "value")`. -/
def dictFindExact : VDict → String → Option Value
  | .nil, _ => none
  | .cons k v rest, target => if k = target then some v else dictFindExact rest target

/-- Source `PropertyRules.get_obj_value`: with `get_raw` the object itself;
otherwise primitives are Yes/No-coerced, a dict with a `value` entry yields
that entry coerced, and other containers are unchanged. -/
def get_obj_value (v : Value) (raw : Bool) : Value :=
  if raw then v
  else
    match v with
    | vNull => convert_revit_boolean vNull
    | vBool b => convert_revit_boolean (vBool b)
    | vNum q => convert_revit_boolean (vNum q)
    | vStr s => convert_revit_boolean (vStr s)
    | vDict entries =>
        match dictFindExact entries "value" with
        | some inner => convert_revit_boolean inner
        | none => vDict entries
    | vList items => vList items

/-- Source `PropertyRules.search_obj`: walk a segment chain, matching each
segment case-insensitively against the first matching key. -/
def search_obj : List String → Value → Option Value
  | [], obj => some obj
  | current :: remaining, vDict entries =>
      match dictFindCI entries current with
      | some v => search_obj remaining v
      | none => none
  | _ :: _, _ => none

/-- Source `PropertyRules.normalize_path`: drop `properties`/`parameters`
segments (case-insensitively). -/
def normalize_path (path : String) : String :=
  joinWithDot
    ((strSplitChar '.' path).filter
      (fun p => pyLower p ≠ "properties" ∧ pyLower p ≠ "parameters"))

mutual
/-- The `traverse` closure of source `PropertyRules.find_property`: direct
segment match at this node, else depth-first recursion into dict-typed
members (children before siblings), skipping underscore-prefixed members. -/
def traverse_value (parts : List String) (raw : Bool) : Value → Option Value
  | vDict entries =>
      match search_obj parts (vDict entries) with
      | some v => some (get_obj_value v raw)
      | none => traverse_entries parts raw entries
  | _ => none
/-- Depth-first search over a node's members for `traverse_value`. -/
def traverse_entries (parts : List String) (raw : Bool) : VDict → Option Value
  | .nil => none
  | .cons k v rest =>
      if strHeadIs '_' k then traverse_entries parts raw rest
      else
        match v with
        | vDict es =>
            match traverse_value parts raw (vDict es) with
            | some r => some r
            | none => traverse_entries parts raw rest
        | _ => traverse_entries parts raw rest
end

/-- Source `PropertyRules.find_property`. -/
def find_property (root : Value) (search_path : String) (raw : Bool) : Option Value :=
  traverse_value (strSplitChar '.' (normalize_path search_path)) raw root

/-- Source `PropertyRules.has_parameter`. -/
def has_parameter (obj : Value) (parameter_name : String) : Bool :=
  (find_property obj parameter_name false).isSome

/-- Source `PropertyRules.get_parameter_value` with its default `None`. -/
def get_parameter_value (obj : Value) (parameter_name : String) (raw : Bool) : Value :=
  (find_property obj parameter_name raw).getD vNull

/-! ## Value comparison (`src/rules.py`, `compare_values` and helpers) -/

/-- The `strict_convert_boolean` closure of source
`PropertyRules.try_boolean_comparison`: true/false strings (stripped,
case-insensitive) become booleans; Yes/No only when `allow_yes_no` (note
the source applies `convert_revit_boolean` to the unstripped string). -/
def strict_convert_boolean (v : Value) (allow_yes_no : Bool) : Value :=
  match v with
  | vNull => vNull
  | vBool b => vBool b
  | vStr s =>
      if pyLower (pyStrip s) = "true" then vBool true
      else if pyLower (pyStrip s) = "false" then vBool false
      else if allow_yes_no then convert_revit_boolean (vStr s) else vStr s
  | other => other

/-- Source `PropertyRules.try_boolean_comparison`. -/
def try_boolean_comparison (v1 v2 : Value) (allow_yes_no : Bool) : Bool × Bool :=
  match strict_convert_boolean v1 allow_yes_no, strict_convert_boolean v2 allow_yes_no with
  | vBool x, vBool y => (true, x == y)
  | _, _ => (false, false)

/-- The `safe_convert_to_number` closure of source
`PropertyRules.compare_values`: strings are stripped, and converted with
`float()` when they look numeric; `float()` can still raise on shapes such
as `"5-"` that pass the look-numeric test. -/
def safe_convert_to_number (v : Value) : Except String Value :=
  match v with
  | vStr s =>
      let s2 := pyStrip s
      if digitcheck s2 then
        match pyFloatParse s2 with
        | some q => .ok (vNum q)
        | none => .error "could not convert string to float"
      else .ok (vStr s2)
  | v => .ok v

/-- The default relative tolerance of Python `math.isclose`, which the
source leaves in place by passing only `abs_tol`. -/
def relTolDefault : ℚ := 1 / 1000000000

/-- Model of Python `math.isclose(a, b, abs_tol := t)` on finite values:
`|a-b| <= max(rel_tol * max(|a|, |b|), abs_tol)` with the default
`rel_tol = 1e-9`. -/
def pyIsClose (a b t : ℚ) : Bool :=
  decide (|a - b| ≤ max (relTolDefault * max |a| |b|) t)

/-- Source `PropertyRules.compare_values`. -/
def compare_values (v1 v2 : Value) (case_sensitive : Bool) (tolerance : ℚ)
    (allow_yes_no_bools : Bool) (use_exact : Bool) : Except String Bool :=
  match try_boolean_comparison v1 v2 allow_yes_no_bools with
  | (true, result) => .ok result
  | (false, _) => do
      let w1 ← safe_convert_to_number v1
      let w2 ← safe_convert_to_number v2
      match w1, w2 with
      | vStr s1, vStr s2 =>
          .ok (if case_sensitive then s1 = s2 else pyLower s1 = pyLower s2)
      | w1, w2 =>
          match asNum w1, asNum w2 with
          | some a, some b =>
              .ok (if use_exact then a = b else pyIsClose a b tolerance)
          | _, _ => .ok (pyEq w1 w2)

/-! ## Predicate library (`src/rules.py`) -/

/-- Source `PropertyRules.is_parameter_value`: plain `==` against the
resolved parameter value. -/
def is_parameter_value (obj : Value) (parameter_name : String) (value_to_match : Value) : Bool :=
  pyEq (get_parameter_value obj parameter_name false) value_to_match

/-- Source `PropertyRules.parse_number_from_string`: `int()` first, then
`float()`; an unparseable string raises
`ValueError("Input string is not a valid integer or float")`, and a
non-numeric non-string argument raises an uncaught `TypeError`. -/
def parse_number_from_string (v : Value) : Except String ℚ :=
  match v with
  | vStr s =>
      match pyIntParse s with
      | some n => .ok (n : ℚ)
      | none =>
          match pyFloatParse s with
          | some q => .ok q
          | none => .error "Input string is not a valid integer or float"
  | vNum q => .ok ((ratTrunc q : ℤ) : ℚ)
  | vBool b => .ok (if b then 1 else 0)
  | _ => .error "TypeError: int() argument"

/-- Model of Python `float()` applied to a parameter value, as used in the
numeric predicates inside `try/except (ValueError, TypeError)`: `none`
models the caught exception. -/
def pyFloat : Value → Option ℚ
  | vNum q => some q
  | vBool b => some (if b then 1 else 0)
  | vStr s => pyFloatParse s
  | _ => none

/-- Source `PropertyRules.is_parameter_value_greater_than`: missing or
non-numeric property value recovers to `false`; the threshold is parsed
only afterwards and a parse failure propagates as an exception. -/
def is_parameter_value_greater_than (obj : Value) (parameter_name : String)
    (threshold : Value) : Except String Bool :=
  let pv := get_parameter_value obj parameter_name false
  if pv = vNull then .ok false
  else
    match pyFloat pv with
    | none => .ok false
    | some q => do
        let t ← parse_number_from_string threshold
        .ok (decide (t < q))

/-- Source `PropertyRules.is_parameter_value_less_than`. -/
def is_parameter_value_less_than (obj : Value) (parameter_name : String)
    (threshold : Value) : Except String Bool :=
  let pv := get_parameter_value obj parameter_name false
  if pv = vNull then .ok false
  else
    match pyFloat pv with
    | none => .ok false
    | some q => do
        let t ← parse_number_from_string threshold
        .ok (decide (q < t))

/-- Source `PropertyRules.is_parameter_value_in_range`: the `"min,max"`
string is split and parsed before the property is read, so a malformed
range raises regardless of the property; a missing or non-numeric property
value then recovers to `false`. -/
def is_parameter_value_in_range (obj : Value) (parameter_name : String)
    (value_range : Value) : Except String Bool :=
  match value_range with
  | vStr s =>
      match strSplitChar ',' s with
      | [a, b] => do
          let lo ← parse_number_from_string (vStr a)
          let hi ← parse_number_from_string (vStr b)
          let pv := get_parameter_value obj parameter_name false
          if pv = vNull then .ok false
          else
            match pyFloat pv with
            | none => .ok false
            | some q => .ok (decide (lo ≤ q ∧ q ≤ hi))
      | _ => .error "ValueError: values to unpack"
  | _ => .error "AttributeError: split"

/-- Turn a `VList` into a `List` for membership loops. -/
def vlistToList : VList → List Value
  | .nil => []
  | .cons v rest => v :: vlistToList rest

/-- Source `PropertyRules.is_parameter_value_in_list`: a string argument is
split on commas and trimmed; membership is tested on the value and on its
string form; a non-list non-string argument yields `false`. -/
def is_parameter_value_in_list (obj : Value) (parameter_name : String)
    (value_list : Value) : Bool :=
  let pv := get_parameter_value obj parameter_name false
  let entries : Option (List Value) :=
    match value_list with
    | vStr s =>
        some ((((strSplitChar ',' s).map pyStrip).filter (fun x => x ≠ "")).map vStr)
    | vList items => some (vlistToList items)
    | _ => none
  match entries with
  | some l => l.any (fun x => pyEq pv x) || l.any (fun x => pyEq (vStr (pyStr pv)) x)
  | none => false

/-- Source `PropertyRules.check_boolean_value`. -/
def check_boolean_value (v : Value) (values_to_match : List String) : Bool :=
  match v with
  | vBool b => b = values_to_match.contains "true"
  | vStr s => values_to_match.contains (pyLower s)
  | _ => false

/-- Source `PropertyRules.is_parameter_value_true` (two-parameter form). -/
def is_parameter_value_true (obj : Value) (parameter_name : String) : Bool :=
  check_boolean_value (get_parameter_value obj parameter_name false) ["yes", "true", "1"]

/-- Source `PropertyRules.is_parameter_value_false` (two-parameter form). -/
def is_parameter_value_false (obj : Value) (parameter_name : String) : Bool :=
  check_boolean_value (get_parameter_value obj parameter_name false) ["no", "false", "0"]

/-- Does `needle` start `hay` (character lists)? -/
def listStarts : List Char → List Char → Bool
  | [], _ => true
  | _ :: _, [] => false
  | a :: as2, b :: bs => a == b && listStarts as2 bs

/-- Contiguous-substring test, as Python `needle in haystack` on strings. -/
def listHasInfix : List Char → List Char → Bool
  | needle, [] => needle.isEmpty
  | needle, c :: rest => listStarts needle (c :: rest) || listHasInfix needle rest

/-- Modelled external library call: Python `re.match(pattern, text)` with
the pattern treated as a literal prefix (no metacharacter support; no
claim below exercises regex matching). -/
def reMatchModel (pattern text : String) : Bool := listStarts pattern.data text.data

/-- Modelled external library call: `Levenshtein.ratio`, modelled as the
indicator of string equality (no claim below exercises fuzzy matching). -/
def similarityScore (a b : String) : ℚ := if a = b then 1 else 0

/-- Source `PropertyRules.is_parameter_value_like`: regex mode unless
`fuzzy`; a non-string pattern raises `TypeError` in either mode. -/
def is_parameter_value_like (obj : Value) (parameter_name : String)
    (pattern : Value) (fuzzy : Bool) (threshold : ℚ) : Except String Bool :=
  let pv := get_parameter_value obj parameter_name false
  if pv = vNull then .ok false
  else
    match pattern with
    | vStr p =>
        if fuzzy then .ok (decide (threshold ≤ similarityScore (pyStr pv) p))
        else .ok (reMatchModel p (pyStr pv))
    | _ => .error "TypeError: pattern must be a string"

/-- Source `PropertyRules.is_parameter_value_containing`: case-insensitive
substring test on stringified values; missing property yields `false`. -/
def is_parameter_value_containing (obj : Value) (parameter_name : String)
    (substring : Value) : Bool :=
  let pv := get_parameter_value obj parameter_name false
  if pv = vNull then false
  else listHasInfix (pyLower (pyStr substring)).data (pyLower (pyStr pv)).data

/-- Source `PropertyRules.is_parameter_value_not_containing`. -/
def is_parameter_value_not_containing (obj : Value) (parameter_name : String)
    (substring : Value) : Bool :=
  ! is_parameter_value_containing obj parameter_name substring

/-- Source `PropertyRules.is_equal_value` (defaults
`case_sensitive=False, tolerance=1e-6` are passed explicitly here). -/
def is_equal_value (obj : Value) (parameter_name : String) (value_to_match : Value)
    (case_sensitive : Bool) (tolerance : ℚ) : Except String Bool :=
  let pv := get_parameter_value obj parameter_name false
  if pv = vNull then .ok false
  else compare_values pv value_to_match case_sensitive tolerance true false

/-- Source `PropertyRules.is_not_equal_value`: missing property counts as
not equal. -/
def is_not_equal_value (obj : Value) (parameter_name : String) (value_to_match : Value)
    (case_sensitive : Bool) (tolerance : ℚ) : Except String Bool :=
  let pv := get_parameter_value obj parameter_name false
  if pv = vNull then .ok true
  else do
    let r ← compare_values pv value_to_match case_sensitive tolerance true false
    .ok (! r)

/-- Source `PropertyRules.is_identical_value`: raw property read, strict
comparison (`case_sensitive=True, tolerance=0, allow_yes_no_bools=False,
use_exact=True`). -/
def is_identical_value (obj : Value) (parameter_name : String)
    (value_to_match : Value) : Except String Bool :=
  let pv := get_parameter_value obj parameter_name true
  if pv = vNull then .ok false
  else compare_values pv value_to_match true 0 false true

/-! ## Predicate registration and dispatch
(`src/predicates.py`, `src/rule_processor.py`) -/

/-- Source `PREDICATE_METHOD_MAP` from `src/predicates.py`: spreadsheet
predicate names to `PropertyRules` method names, verbatim. -/
def PREDICATE_METHOD_MAP : List (String × String) :=
  [("exists", "has_parameter"),
   ("greater than", "is_parameter_value_greater_than"),
   ("less than", "is_parameter_value_less_than"),
   ("in range", "is_parameter_value_in_range"),
   ("in list", "is_parameter_value_in_list"),
   ("equal to", "is_equal_value"),
   ("not equal to", "is_not_equal_value"),
   ("is true", "is_parameter_value_true"),
   ("is false", "is_parameter_value_false"),
   ("is like", "is_parameter_value_like"),
   ("identical to", "is_identical_value"),
   ("contains", "is_parameter_value_containing"),
   ("does not contain", "is_parameter_value_not_containing")]

/-- Dictionary lookup in the predicate map. -/
def predicateLookup (key : String) : Option String :=
  (PREDICATE_METHOD_MAP.find? (fun kv => kv.1 = key)).map (fun kv => kv.2)

/-- The `method(speckle_object, property_name, value)` call of source
`evaluate_condition`, dispatching on the method name exactly as
`getattr(PropertyRules, method_name)` does. Every predicate is invoked
with three positional arguments; `is_parameter_value_true`/`_false` accept
only two parameters, so dispatching to them raises `TypeError`. Keyword
defaults of the methods apply (`is_equal_value` with
`case_sensitive=False, tolerance=1e-6`; `is_parameter_value_like` with
`fuzzy=False, threshold=0.8`). -/
def call_predicate_method (method_name : String) (obj : Value)
    (property_name : String) (value : Value) : Except String Bool :=
  if method_name = "has_parameter" then .ok (has_parameter obj property_name)
  else if method_name = "is_parameter_value_greater_than" then
    is_parameter_value_greater_than obj property_name value
  else if method_name = "is_parameter_value_less_than" then
    is_parameter_value_less_than obj property_name value
  else if method_name = "is_parameter_value_in_range" then
    is_parameter_value_in_range obj property_name value
  else if method_name = "is_parameter_value_in_list" then
    .ok (is_parameter_value_in_list obj property_name value)
  else if method_name = "is_equal_value" then
    is_equal_value obj property_name value false (1 / 1000000)
  else if method_name = "is_not_equal_value" then
    is_not_equal_value obj property_name value false (1 / 1000000)
  else if method_name = "is_parameter_value_true" then
    .error "TypeError: is_parameter_value_true takes 2 positional arguments but 3 were given"
  else if method_name = "is_parameter_value_false" then
    .error "TypeError: is_parameter_value_false takes 2 positional arguments but 3 were given"
  else if method_name = "is_parameter_value_like" then
    is_parameter_value_like obj property_name value false (4 / 5)
  else if method_name = "is_identical_value" then
    is_identical_value obj property_name value
  else if method_name = "is_parameter_value_containing" then
    .ok (is_parameter_value_containing obj property_name value)
  else if method_name = "is_parameter_value_not_containing" then
    .ok (is_parameter_value_not_containing obj property_name value)
  else .ok false

/-- One spreadsheet rule row. `propertyName` models
`condition.get("Property Name", condition.get("Property Path"))`;
`reportSeverity`/`severityAlt` model the `Report Severity`/`Severity`
columns, with `none` for a missing column and `some vNull` for a `None`
cell (both read back as Python `None` through `Series.get`). -/
structure Row where
  ruleNumber : Value
  logic : String
  propertyName : String
  predicate : String
  value : Value
  message : Value
  reportSeverity : Option Value
  severityAlt : Option Value
deriving DecidableEq

/-- Source `evaluate_condition` from `src/rule_processor.py`: look the
predicate up in `PREDICATE_METHOD_MAP` and call the method; an unknown
predicate name falls through to `False`. -/
def evaluate_condition (obj : Value) (condition : Row) : Except String Bool :=
  match predicateLookup condition.predicate with
  | some method_name =>
      call_predicate_method method_name obj condition.propertyName condition.value
  | none => .ok false

/-! ## Rule grammar and the filter-then-check pipeline
(`src/rule_processor.py`) -/

/-- Source `validate_rule_structure`: `some msg` models the raised
`ValueError` (messages abbreviated), `none` a successful validation. -/
def validate_rule_structure (g : List Row) : Option String :=
  if g.isEmpty then none
  else
    let logics := g.map (fun r => pyUpper r.logic)
    if logics.head? ≠ some "WHERE" then some "Rule must start with WHERE"
    else if 1 < (logics.filter (fun v => v = "CHECK")).length then
      some "Rule has multiple CHECK conditions"
    else if (logics.filter (fun v => v = "CHECK")).length = 1 ∧
        logics.getLast? ≠ some "CHECK" then
      some "CHECK must be the last condition"
    else if logics.any (fun v => v ≠ "WHERE" ∧ v ≠ "AND" ∧ v ≠ "CHECK") then
      some "Invalid Logic values found"
    else none

/-- Source `get_filters_and_check`: explicit CHECK, else last AND, else the
whole group filtered with its first row as check. -/
def get_filters_and_check (g : List Row) : List Row × Option Row :=
  if g.isEmpty then ([], none)
  else
    let checkRows := g.filter (fun r => pyUpper r.logic = "CHECK")
    if ¬ checkRows.isEmpty then
      (g.filter (fun r => pyUpper r.logic ≠ "CHECK"), checkRows.head?)
    else
      let andIdxs := (List.range g.length).filter
        (fun i => ((g.drop i).head?.map (fun r => pyUpper r.logic)) = some "AND")
      match andIdxs.getLast? with
      | some i => (g.take i, (g.drop i).head?)
      | none => (g, g.head?)

/-- The filter list comprehension of source `process_rule` (left to right;
a predicate exception propagates). -/
def filter_objects (c : Row) : List Value → Except String (List Value)
  | [] => .ok []
  | o :: rest => do
      let b ← evaluate_condition o c
      let r ← filter_objects c rest
      .ok (if b then o :: r else r)

/-- The sequential filter loop of source `process_rule`: `none` models the
early `return [], []` taken when the working set becomes empty. -/
def apply_filters : List Row → List Value → Except String (Option (List Value))
  | [], objs => .ok (some objs)
  | c :: rest, objs => do
      let f ← filter_objects c objs
      if f.isEmpty then .ok none else apply_filters rest f

/-- The final pass/fail loop of source `process_rule`. -/
def partition_by_check (c : Row) : List Value → Except String (List Value × List Value)
  | [] => .ok ([], [])
  | o :: rest => do
      let b ← evaluate_condition o c
      let p ← partition_by_check c rest
      .ok (if b then (o :: p.1, p.2) else (p.1, o :: p.2))

/-- Source `process_rule`: empty inputs short-circuit; a structural
validation error is caught (diagnostic printed) and degrades to empty
pass/fail; then filters run sequentially with the empty-set early exit,
and survivors are partitioned by the final check. -/
def process_rule (objs : List Value) (g : List Row) :
    Except String (List Value × List Value) :=
  if objs.isEmpty ∨ g.isEmpty then .ok ([], [])
  else
    match validate_rule_structure g with
    | some _ => .ok ([], [])
    | none =>
        match get_filters_and_check g with
        | (filters, some check) => do
            match ← apply_filters filters objs with
            | none => .ok ([], [])
            | some survivors => partition_by_check check survivors
        | (_, none) => .ok ([], [])

/-- The per-group processing loop of source `apply_rules_to_objects`,
restricted to the evaluation outcomes (severity filtering and context
attachment are boundary effects modelled by `attach_results` below; the
`Message`/`Report Severity` column-presence guard is not modelled since
`Row` always carries those fields). A predicate exception in any group
propagates and aborts the whole run, exactly as in the source loop. -/
def apply_rules_core (objs : List Value) :
    List (String × List Row) → Except String (List (String × (List Value × List Value)))
  | [] => .ok []
  | (rid, g) :: rest => do
      let r ← process_rule objs g
      let rs ← apply_rules_core objs rest
      .ok ((rid, r) :: rs)

/-! ## Severity resolution and result attachment (`src/rule_processor.py`) -/

/-- Source `SeverityLevel` enum. -/
inductive SeverityLevel where
  | INFO : SeverityLevel
  | WARNING : SeverityLevel
  | ERROR : SeverityLevel
deriving DecidableEq

/-- The `.value` string of a `SeverityLevel`. -/
def severityValueString : SeverityLevel → String
  | .INFO => "Info"
  | .WARNING => "Warning"
  | .ERROR => "Error"

/-- Python `Series.get` result as a value (`None` for a missing column). -/
def pyGetOpt : Option Value → Value
  | none => vNull
  | some v => v

/-- The severity cell consulted by source `get_severity`:
`rule_info.get("Report Severity") or rule_info.get("Severity")` — the
`Severity` column is the fallback whenever `Report Severity` is missing or
falsy (Python `or`). -/
def resolved_severity (r : Row) : Value :=
  let a := pyGetOpt r.reportSeverity
  if pyTruthy a then a else pyGetOpt r.severityAlt

/-- Source `get_severity`: non-strings default to ERROR; strings are
stripped, uppercased, `WARN` is aliased to `WARNING`, and an unmatched
name defaults to ERROR. -/
def get_severity (r : Row) : SeverityLevel :=
  match resolved_severity r with
  | vStr s =>
      let u := pyUpper (pyStrip s)
      let u2 := if u = "WARN" then "WARNING" else u
      if u2 = "INFO" then .INFO
      else if u2 = "WARNING" then .WARNING
      else if u2 = "ERROR" then .ERROR
      else .ERROR
  | _ => .ERROR

/-- The two levels source `attach_results` reports failures at
(`ObjectResultLevel` of the host SDK). -/
inductive ObjectResultLevel where
  | WARNING : ObjectResultLevel
  | ERROR : ObjectResultLevel
deriving DecidableEq

/-- One host-context annotation call: `level = none` models
`attach_info_to_objects`, `level = some _` models
`attach_result_to_objects`. -/
structure Attachment where
  category : String
  objectIds : List Value
  message : String
  level : Option ObjectResultLevel
  metadata : List (String × Value)
deriving DecidableEq

/-- Model of Python `str.capitalize`: first character uppercased, the rest
lowercased (ASCII). -/
def pyCapitalize (s : String) : String :=
  match s.data with
  | [] => ""
  | c :: rest => ⟨pyCharUpper c :: rest.map pyCharLower⟩

/-- Source `format_message` (`pandas.isna` on non-float cells is `False`
and is not modelled separately: a missing message cell is `vNull`). -/
def format_message (r : Row) : String :=
  match r.message with
  | vNull => "No Message"
  | m => pyStr m

/-- Source `get_metadata`: the metadata dict is built from strings and an
integer count, so `json.dumps` always succeeds and the exception branch
returning `{}` is unreachable; the success path is modelled. -/
def get_metadata (rule_id : String) (r : Row) (passed : Bool) (objs : List Value) :
    List (String × Value) :=
  [("rule_id", vStr rule_id),
   ("status", vStr (if passed then "PASS" else "FAIL")),
   ("severity", vStr (severityValueString (get_severity r))),
   ("rule_message", vStr (format_message r)),
   ("object_count", vNum (objs.length : ℚ))]

/-- Python `speckle_object.id`: exact attribute access; a missing attribute
raises `AttributeError`. -/
def get_object_id (o : Value) : Except String Value :=
  match o with
  | vDict entries =>
      match dictFindExact entries "id" with
      | some v => .ok v
      | none => .error "AttributeError: id"
  | _ => .error "AttributeError: id"

/-- The `[speckle_object.id for speckle_object in speckle_objects]`
comprehension of source `attach_results`. -/
def collect_object_ids : List Value → Except String (List Value)
  | [] => .ok []
  | o :: rest => do
      let i ← get_object_id o
      let rest2 ← collect_object_ids rest
      .ok (i :: rest2)

/-- Source `attach_results`: non-empty failing objects are attached at
WARNING exactly when the capitalized `Report Severity` string is
`Warning` or `Warn`, at ERROR otherwise; passing objects are attached as
information. The returned list models the calls made on the host context. -/
def attach_results (objs : List Value) (rule_info : Row) (rule_id : String)
    (passed : Bool) : Except String (List Attachment) :=
  if objs.isEmpty then .ok []
  else
    let metadata := get_metadata rule_id rule_info passed objs
    let message := format_message rule_info
    if passed then do
      let ids ← collect_object_ids objs
      .ok [⟨"Rule " ++ rule_id, ids, message, none, metadata⟩]
    else
      match rule_info.reportSeverity with
      | none => .error "KeyError: Report Severity"
      | some (vStr s) => do
          let level :=
            if pyCapitalize s = "Warning" ∨ pyCapitalize s = "Warn" then
              ObjectResultLevel.WARNING
            else ObjectResultLevel.ERROR
          let ids ← collect_object_ids objs
          .ok [⟨"Rule " ++ rule_id, ids, message, some level, metadata⟩]
      | some _ => .error "AttributeError: capitalize"

/-! ## Concrete fixtures used by witnesses and counterexamples -/

/-- A wall-like element. -/
def objWalls : Value := vDict (.cons "category" (vStr "Walls") .nil)

/-- A door-like element. -/
def objDoor : Value := vDict (.cons "category" (vStr "Doors") .nil)

/-- An element with a numeric `width` parameter. -/
def objW300 : Value := vDict (.cons "id" (vStr "a1") (.cons "width" (vNum 300) .nil))

/-- An element whose parameter `p` stores the Revit-style string `"Yes"`. -/
def objYes : Value := vDict (.cons "p" (vStr "Yes") .nil)

/-- The record `{"value": "Yes"}`. -/
def recordYes : Value := vDict (.cons "value" (vStr "Yes") .nil)

/-- An element whose parameter `p` stores the record `{"value": "Yes"}`. -/
def objRec : Value := vDict (.cons "p" recordYes .nil)

/-- An element carrying only an `id`. -/
def objId : Value := vDict (.cons "id" (vStr "o1") .nil)

/-- A WHERE row testing `category equal to Walls`. -/
def rowWhereEq : Row := ⟨vNull, "WHERE", "category", "equal to", vStr "Walls", vNull, none, none⟩

/-- A CHECK row using the spec's `matches` predicate name. -/
def rowCheckMatches : Row := ⟨vNull, "CHECK", "category", "matches", vStr "Walls", vNull, none, none⟩

/-- An AND row (used as an invalid group opener). -/
def rowAndEq : Row := ⟨vNull, "AND", "category", "equal to", vStr "Walls", vNull, none, none⟩

/-- A CHECK row testing `width greater than 200`. -/
def rowCheckGt : Row := ⟨vNull, "CHECK", "width", "greater than", vStr "200", vNull, none, none⟩

/-- A rule row declaring severity `Info`. -/
def rowInfo : Row := ⟨vNull, "WHERE", "", "", vNull, vStr "msg", some (vStr "Info"), none⟩

/-- A rule row whose `Report Severity` cell is `None` while the legacy
`Severity` column holds `Warning`. -/
def rowC8 : Row := ⟨vNull, "WHERE", "", "", vNull, vNull, some vNull, some (vStr "Warning")⟩

/-- A rule row with severity `" warn "` (whitespace and case noise). -/
def rowWarnNoise : Row := ⟨vNull, "WHERE", "", "", vNull, vNull, some (vStr " warn "), none⟩

/-- A rule row with unrecognized severity `Critical`. -/
def rowCritical : Row := ⟨vNull, "WHERE", "", "", vNull, vNull, some (vStr "Critical"), none⟩

/-! ## Claim C1 -/

/-- C1 (counterexample): the claim says a condition whose `Predicate` is
`matches` evaluates via `is_parameter_value`. On `objWalls` the predicate
`is_parameter_value` holds for `category = "Walls"`, yet
`evaluate_condition` returns `false`: `matches` is not a key of
`PREDICATE_METHOD_MAP`, so the condition falls through. -/
theorem C1_counterexample :
    evaluate_condition objWalls rowCheckMatches = .ok false ∧
    is_parameter_value objWalls "category" (vStr "Walls") = true :=
  ⟨rfl, rfl⟩

/-- C1 (amended): the predicate table has no `matches` (nor `equals` nor
`true`) key, so a `matches` condition evaluates to `false` for every
element; loose equality is registered under the key `equal to`
(method `is_equal_value`, called with its defaults), and the truth
predicate under `is true` (method name `is_parameter_value_true`). -/
theorem C1_amended :
    (∀ (obj : Value) (c : Row), c.predicate = "matches" →
        evaluate_condition obj c = .ok false) ∧
    (∀ (obj : Value) (c : Row), c.predicate = "equal to" →
        evaluate_condition obj c
          = is_equal_value obj c.propertyName c.value false (1 / 1000000)) ∧
    predicateLookup "matches" = none ∧
    predicateLookup "equals" = none ∧
    predicateLookup "true" = none ∧
    predicateLookup "equal to" = some "is_equal_value" ∧
    predicateLookup "is true" = some "is_parameter_value_true" := by
  refine ⟨?_, ?_, rfl, rfl, rfl, rfl, rfl⟩
  · intro obj c h
    rw [evaluate_condition, h]
    rfl
  · intro obj c h
    rw [evaluate_condition, h]
    rfl

/-- C1 (witness): the amended statement at `objWalls` with a `matches`
condition and an `equal to` condition. -/
theorem C1_amended_witness :
    evaluate_condition objWalls rowCheckMatches = .ok false ∧
    evaluate_condition objWalls rowWhereEq
      = is_equal_value objWalls "category" (vStr "Walls") false (1 / 1000000) :=
  ⟨C1_amended.1 objWalls rowCheckMatches rfl, C1_amended.2.1 objWalls rowWhereEq rfl⟩

/-! ## Claim C2 -/

/-- C2 (counterexample): on an element whose `width` is the number 300,
`greater than` with the unparseable threshold `"abc"` raises
(`ValueError` from `parse_number_from_string`) instead of returning
`false`; nothing in `evaluate_condition`/`process_rule` catches it. -/
theorem C2_counterexample :
    is_parameter_value_greater_than objW300 "width" (vStr "abc")
      = .error "Input string is not a valid integer or float" ∧
    is_parameter_value_in_range objW300 "width" (vStr "1;5")
      = .error "ValueError: values to unpack" :=
  ⟨rfl, rfl⟩

/-- C2 (amended): `greater than` and `less than` recover locally (returning
`false`, never raising) from a missing or numerically unconvertible
property value, but an unparseable threshold string raises as soon as a
numeric property value reaches the comparison, and `in range` parses its
range string before reading the property, raising on a malformed range
regardless of the element; the exception propagates out of the predicate. -/
theorem C2_amended :
    (∀ (obj : Value) (path : String) (t : Value),
        get_parameter_value obj path false = vNull →
        is_parameter_value_greater_than obj path t = .ok false ∧
        is_parameter_value_less_than obj path t = .ok false) ∧
    (∀ (obj : Value) (path : String) (t : Value),
        get_parameter_value obj path false ≠ vNull →
        pyFloat (get_parameter_value obj path false) = none →
        is_parameter_value_greater_than obj path t = .ok false ∧
        is_parameter_value_less_than obj path t = .ok false) ∧
    (∀ (obj : Value) (path : String) (t : Value) (q : ℚ) (e : String),
        get_parameter_value obj path false ≠ vNull →
        pyFloat (get_parameter_value obj path false) = some q →
        parse_number_from_string t = .error e →
        is_parameter_value_greater_than obj path t = .error e ∧
        is_parameter_value_less_than obj path t = .error e) ∧
    (∀ (obj : Value) (path : String) (s a b e : String),
        strSplitChar ',' s = [a, b] →
        parse_number_from_string (vStr a) = .error e →
        is_parameter_value_in_range obj path (vStr s) = .error e) ∧
    (∀ (obj : Value) (path : String) (s a b : String) (la lb : ℚ),
        strSplitChar ',' s = [a, b] →
        parse_number_from_string (vStr a) = .ok la →
        parse_number_from_string (vStr b) = .ok lb →
        get_parameter_value obj path false = vNull →
        is_parameter_value_in_range obj path (vStr s) = .ok false) := by
  refine ⟨?_, ?_, ?_, ?_, ?_⟩
  · intro obj path t h
    constructor <;>
      simp [is_parameter_value_greater_than, is_parameter_value_less_than, h]
  · intro obj path t h hf
    constructor <;>
      simp [is_parameter_value_greater_than, is_parameter_value_less_than, h, hf]
  · intro obj path t q e h hf hp
    constructor <;>
      simp [is_parameter_value_greater_than, is_parameter_value_less_than,
        h, hf, hp, bind, Except.bind]
  · intro obj path s a b e hs hp
    simp [is_parameter_value_in_range, hs, hp, bind, Except.bind]
  · intro obj path s a b la lb hs hpa hpb h
    simp [is_parameter_value_in_range, hs, hpa, hpb, h, bind, Except.bind]

/-- C2 (witness): the amended statement at concrete elements — missing
property recovers, numeric 300 with threshold `"abc"` raises, range
`"1;5"` raises, range `"200,400"` with a missing property recovers. -/
theorem C2_amended_witness :
    is_parameter_value_greater_than objW300 "nope" (vStr "abc") = .ok false ∧
    is_parameter_value_greater_than objW300 "width" (vStr "abc")
      = .error "Input string is not a valid integer or float" ∧
    is_parameter_value_in_range objW300 "width" (vStr "a,b")
      = .error "Input string is not a valid integer or float" ∧
    is_parameter_value_in_range objW300 "nope" (vStr "200,400") = .ok false := by
  refine ⟨(C2_amended.1 objW300 "nope" (vStr "abc") rfl).1,
    (C2_amended.2.2.1 objW300 "width" (vStr "abc") 300
      "Input string is not a valid integer or float" (by decide) rfl rfl).1,
    C2_amended.2.2.2.1 objW300 "width" "a,b" "a" "b" _ rfl rfl,
    C2_amended.2.2.2.2 objW300 "nope" "200,400" "200" "400" 200 400 rfl rfl rfl rfl⟩

/-! ## Claim C5 -/

/-- A structurally invalid group degrades to empty pass/fail inside
`process_rule` (the raised `ValueError` is caught there). -/
theorem process_rule_invalid (objs : List Value) (g : List Row) (e : String)
    (h : validate_rule_structure g = some e) :
    process_rule objs g = .ok ([], []) := by
  rw [process_rule]
  split_ifs with hif
  · rfl
  · rw [h]

/-- C5: a rule group violating the WHERE/CHECK grammar (its validation
yields a diagnostic `e`) contributes exactly `([], [])` to the run, while
the results of every other group in the table are exactly what they would
be on their own — the structural error never fails the whole run. -/
theorem C5_structural_error_isolated (objs : List Value)
    (pre post : List (String × List Row)) (rid : String) (g : List Row) (e : String)
    (rpre rpost : List (String × (List Value × List Value)))
    (hg : validate_rule_structure g = some e)
    (hpre : apply_rules_core objs pre = .ok rpre)
    (hpost : apply_rules_core objs post = .ok rpost) :
    apply_rules_core objs (pre ++ (rid, g) :: post)
      = .ok (rpre ++ (rid, ([], [])) :: rpost) := by
  induction pre generalizing rpre with
  | nil =>
      simp only [apply_rules_core] at hpre
      injection hpre with hpre
      subst hpre
      simp [apply_rules_core, process_rule_invalid objs g e hg, hpost, bind, Except.bind]
  | cons hd tl ih =>
      obtain ⟨hid, hgroup⟩ := hd
      simp only [apply_rules_core, bind, Except.bind] at hpre
      cases h1 : process_rule objs hgroup with
      | error e2 => rw [h1] at hpre; exact absurd hpre (by simp)
      | ok r =>
          rw [h1] at hpre
          cases h2 : apply_rules_core objs tl with
          | error e2 => rw [h2] at hpre; exact absurd hpre (by simp)
          | ok rs =>
              rw [h2] at hpre
              injection hpre with hpre
              subst hpre
              have h3 := ih rs h2
              simp only [List.cons_append, apply_rules_core, bind, Except.bind, h1,
                List.append_eq]
              rw [h3]

/-- C5 (witness): a table with a valid group, an AND-opened (invalid)
group, and another valid group: the invalid group yields `([], [])`, the
others their own results, and the run succeeds. -/
theorem C5_structural_error_isolated_witness :
    apply_rules_core [objWalls, objDoor]
        [("1", [rowWhereEq]), ("2", [rowAndEq]), ("3", [rowWhereEq])]
      = .ok [("1", ([objWalls], [])), ("2", ([], [])), ("3", ([objWalls], []))] := by
  have h := C5_structural_error_isolated [objWalls, objDoor]
    [("1", [rowWhereEq])] [("3", [rowWhereEq])] "2" [rowAndEq]
    "Rule must start with WHERE"
    [("1", ([objWalls], []))] [("3", ([objWalls], []))] rfl rfl rfl
  exact h

/-! ## Claim C7 -/

/-- Filter chains decompose along list append. -/
theorem apply_filters_append (fs1 fs2 : List Row) (objs : List Value) :
    apply_filters (fs1 ++ fs2) objs =
      match apply_filters fs1 objs with
      | .error e => .error e
      | .ok none => .ok none
      | .ok (some s) => apply_filters fs2 s := by
  induction fs1 generalizing objs with
  | nil => simp [apply_filters]
  | cons c rest ih =>
      simp only [List.cons_append, apply_filters, bind, Except.bind]
      cases hf : filter_objects c objs with
      | error e => rfl
      | ok l =>
          by_cases hl : l.isEmpty
          · simp [hl]
          · simp [hl, ih l]

/-- C7: over a valid rule group, if the working set is empty after some
filter (prefix `fs1` leaves survivors `s`, and the next filter `c`
eliminates them all), `process_rule` returns the Skipped outcome
`([], [])` — for every choice of the remaining filters `fs2` and of the
check row, which are therefore never evaluated. -/
theorem C7_empty_filter_short_circuit (objs s : List Value)
    (g fs1 fs2 : List Row) (c check : Row)
    (hobjs : ¬ objs.isEmpty)
    (hval : validate_rule_structure g = none)
    (hsplit : get_filters_and_check g = (fs1 ++ c :: fs2, some check))
    (hpre : apply_filters fs1 objs = .ok (some s))
    (hempty : filter_objects c s = .ok []) :
    process_rule objs g = .ok ([], []) := by
  have hg : g.isEmpty = false := by
    cases g with
    | nil => rw [get_filters_and_check] at hsplit; simp at hsplit
    | cons a b => rfl
  rw [process_rule, if_neg (by simp [hobjs, hg]), hval, hsplit]
  have hchain : apply_filters (fs1 ++ c :: fs2) objs = .ok none := by
    rw [apply_filters_append, hpre]
    simp [apply_filters, hempty, bind, Except.bind]
  simp [hchain, bind, Except.bind]

/-- C7 (witness): the group `[WHERE category equal to Walls,
CHECK width greater than 200]` on a door element: the WHERE filter empties
the working set, so the outcome is Skipped. -/
theorem C7_empty_filter_short_circuit_witness :
    process_rule [objDoor] [rowWhereEq, rowCheckGt] = .ok ([], []) :=
  C7_empty_filter_short_circuit [objDoor] [objDoor]
    [rowWhereEq, rowCheckGt] [] [] rowWhereEq rowCheckGt
    (by decide) rfl rfl rfl rfl

/-! ## Claim C6 -/

/-- C6 (counterexample): the claim's "true iff `|a-b| <= tolerance`" fails:
the source calls `math.isclose(a, b, abs_tol=tolerance)`, which keeps the
default relative tolerance `1e-9`, so two numbers a whole 1 apart compare
equal at magnitude 2e9 even though the claimed bound 1e-6 is exceeded. -/
theorem C6_counterexample :
    compare_values (vNum 2000000000) (vNum 2000000001) false (1 / 1000000) true false
      = .ok true ∧
    ¬ (|(2000000000 : ℚ) - 2000000001| ≤ 1 / 1000000) := by
  constructor
  · simp only [compare_values, try_boolean_comparison, strict_convert_boolean,
      safe_convert_to_number, asNum, pyIsClose, relTolDefault, bind, Except.bind]
    norm_num
  · norm_num

/-- C6 (amended): for numeric operands reaching the numeric comparison with
`exact = false`, `compare_values` returns true iff
`|a-b| <= max(1e-9 * max(|a|,|b|), tolerance)` — Python `math.isclose`
with its default `rel_tol = 1e-9` and `abs_tol = tolerance`; the claim's
two concrete instances hold as stated. -/
theorem C6_amended :
    (∀ (a b t : ℚ),
        compare_values (vNum a) (vNum b) false t true false
          = .ok (decide (|a - b| ≤ max (relTolDefault * max |a| |b|) t))) ∧
    compare_values (vNum (10001 / 10000)) (vNum 1) false (1 / 1000) true false
      = .ok true ∧
    compare_values (vNum (10001 / 10000)) (vNum 1) false (1 / 1000000) true false
      = .ok false := by
  refine ⟨fun a b t => rfl, ?_, ?_⟩
  · simp only [compare_values, try_boolean_comparison, strict_convert_boolean,
      safe_convert_to_number, asNum, pyIsClose, relTolDefault, bind, Except.bind]
    have h1 : |(1 : ℚ) / 10000| = 1 / 10000 := abs_of_pos (by norm_num)
    norm_num [h1]
  · simp only [compare_values, try_boolean_comparison, strict_convert_boolean,
      safe_convert_to_number, asNum, pyIsClose, relTolDefault, bind, Except.bind]
    have h1 : |(1 : ℚ) / 10000| = 1 / 10000 := abs_of_pos (by norm_num)
    have h2 : |(10001 : ℚ) / 10000| = 10001 / 10000 := abs_of_pos (by norm_num)
    norm_num [h1, h2]

/-! ## Claim C3 -/

/-- Every element kept by a filter satisfies its condition. -/
theorem filter_objects_mem_true (c : Row) :
    ∀ (objs l : List Value), filter_objects c objs = .ok l →
      ∀ o ∈ l, evaluate_condition o c = .ok true := by
  intro objs
  induction objs with
  | nil =>
      intro l h o ho
      simp only [filter_objects] at h
      injection h with h
      subst h
      simp at ho
  | cons x rest ih =>
      intro l h o ho
      simp only [filter_objects, bind, Except.bind] at h
      cases hb : evaluate_condition x c with
      | error e => rw [hb] at h; exact absurd h (by simp)
      | ok b =>
          rw [hb] at h
          cases hr : filter_objects c rest with
          | error e => rw [hr] at h; exact absurd h (by simp)
          | ok lr =>
              rw [hr] at h
              injection h with h
              subst h
              by_cases hB : b = true
              · subst hB
                simp only [if_true] at ho
                rcases List.mem_cons.mp ho with rfl | hmem
                · exact hb
                · exact ih lr hr o hmem
              · rw [Bool.not_eq_true] at hB
                subst hB
                simp only [Bool.false_eq_true, if_false] at ho
                exact ih lr hr o ho

/-- A check that every element satisfies partitions into (all, none). -/
theorem partition_all_pass (c : Row) :
    ∀ (l : List Value), (∀ o ∈ l, evaluate_condition o c = .ok true) →
      partition_by_check c l = .ok (l, []) := by
  intro l
  induction l with
  | nil => intro _; rfl
  | cons x rest ih =>
      intro h
      have hx := h x (by simp)
      simp only [partition_by_check, bind, Except.bind, hx]
      rw [ih (fun o ho => h o (by simp [ho]))]
      rfl

/-- C3 (counterexample): the claim says a single-WHERE group partitions the
full input into passed/failed by the WHERE condition (nothing filtered
out). On a one-element list whose element fails the condition, the code
returns `([], [])` — the element was filtered out and the result is the
Skipped outcome, not `([], [objDoor])` as the claim demands; the source
uses the whole group (WHERE row included) as the filter list. -/
theorem C3_counterexample :
    process_rule [objDoor] [rowWhereEq] = .ok ([], []) ∧
    evaluate_condition objDoor rowWhereEq = .ok false ∧
    (Except.ok (([], []) : List Value × List Value) : Except String (List Value × List Value))
      ≠ .ok ([], [objDoor]) :=
  ⟨rfl, rfl, by simp⟩

/-- C3 (amended): for a group consisting of a single WHERE row, that row is
both the only filter and the check, so (when every evaluation succeeds)
the passed list is exactly the elements satisfying the WHERE condition and
the failed list is always empty: elements failing the WHERE are filtered
out beforehand (yielding Skipped when none satisfy it), and every survivor
passes the identical check. -/
theorem C3_amended (objs : List Value) (c : Row)
    (hw : pyUpper c.logic = "WHERE") :
    process_rule objs [c]
      = Except.map (fun l => (l, ([] : List Value))) (filter_objects c objs) := by
  by_cases hobjs : objs.isEmpty
  · rw [List.isEmpty_iff] at hobjs
    subst hobjs
    rfl
  · have hval : validate_rule_structure [c] = none := by
      simp [validate_rule_structure, hw]
    have hsplit : get_filters_and_check [c] = ([c], some c) := by
      simp [get_filters_and_check, hw, List.filter_cons, List.range_succ]
    rw [process_rule, if_neg (by simp [hobjs]), hval, hsplit]
    simp only [apply_filters, bind, Except.bind]
    cases hf : filter_objects c objs with
    | error e => rfl
    | ok l =>
        by_cases hl : l.isEmpty
        · rw [List.isEmpty_iff] at hl
          subst hl
          rfl
        · simp only [hl, if_false, Bool.false_eq_true]
          rw [partition_all_pass c l (filter_objects_mem_true c objs l hf)]
          rfl

/-- C3 (witness): the amended statement on a two-element list: the wall
passes, the door is filtered out (not failed). -/
theorem C3_amended_witness :
    process_rule [objWalls, objDoor] [rowWhereEq] = .ok ([objWalls], []) := by
  have h := C3_amended [objWalls, objDoor] rowWhereEq rfl
  rw [h]
  rfl

/-! ## Claim C4 -/

theorem get_obj_value_true (v : Value) : get_obj_value v true = v := rfl

mutual
theorem traverse_value_raw (parts : List String) : ∀ (v : Value),
    traverse_value parts false v
      = (traverse_value parts true v).map (fun x => get_obj_value x false)
  | vNull => rfl
  | vBool b => rfl
  | vNum q => rfl
  | vStr s => rfl
  | vList items => rfl
  | vDict entries => by
      rw [traverse_value, traverse_value]
      cases hs : search_obj parts (vDict entries) with
      | some v2 => rfl
      | none => exact traverse_entries_raw parts entries
theorem traverse_entries_raw (parts : List String) : ∀ (d : VDict),
    traverse_entries parts false d
      = (traverse_entries parts true d).map (fun x => get_obj_value x false)
  | .nil => rfl
  | .cons k v rest => by
      cases v with
      | vDict es =>
          simp only [traverse_entries]
          by_cases hk : strHeadIs '_' k = true
          · simp only [hk, if_true]
            exact traverse_entries_raw parts rest
          · simp only [hk, Bool.false_eq_true, if_false]
            rw [traverse_value_raw parts (vDict es)]
            cases ht : traverse_value parts true (vDict es) with
            | some r => rfl
            | none => exact traverse_entries_raw parts rest
      | vNull =>
          simp only [traverse_entries]
          split_ifs <;> exact traverse_entries_raw parts rest
      | vBool b =>
          simp only [traverse_entries]
          split_ifs <;> exact traverse_entries_raw parts rest
      | vNum q =>
          simp only [traverse_entries]
          split_ifs <;> exact traverse_entries_raw parts rest
      | vStr s =>
          simp only [traverse_entries]
          split_ifs <;> exact traverse_entries_raw parts rest
      | vList items =>
          simp only [traverse_entries]
          split_ifs <;> exact traverse_entries_raw parts rest
end

theorem find_property_raw (root : Value) (path : String) :
    find_property root path false
      = (find_property root path true).map (fun x => get_obj_value x false) :=
  traverse_value_raw _ root

theorem mem_removeFirst (a c : Char) : ∀ (l : List Char), c ∈ l → c ≠ a → c ∈ removeFirst a l := by
  intro l
  induction l with
  | nil => intro h _; simp at h
  | cons x rest ih =>
      intro hmem hne
      rw [removeFirst]
      by_cases hx : x = a
      · rw [if_pos hx]
        rcases List.mem_cons.mp hmem with rfl | hr
        · exact absurd hx hne
        · exact hr
      · rw [if_neg hx]
        rcases List.mem_cons.mp hmem with rfl | hr
        · exact List.mem_cons_self _ _
        · exact List.mem_cons_of_mem _ (ih hr hne)

theorem digitcheck_chars (s : String) (h : digitcheck s = true) :
    ∀ c ∈ s.data, isDig c = true ∨ c = '.' ∨ c = '-' := by
  intro c hc
  by_cases h1 : c = '.'
  · exact Or.inr (Or.inl h1)
  by_cases h2 : c = '-'
  · exact Or.inr (Or.inr h2)
  left
  have hm1 : c ∈ removeFirst '.' s.data := mem_removeFirst _ _ _ hc h1
  have hm2 : c ∈ removeFirst '-' (removeFirst '.' s.data) := mem_removeFirst _ _ _ hm1 h2
  unfold digitcheck pyIsDigitStr at h
  rw [Bool.and_eq_true] at h
  exact List.all_eq_true.mp h.2 c hm2

theorem pyCharLower_digit (c : Char) (h : isDig c = true) : pyCharLower c = c := by
  unfold isDig at h
  rw [Bool.and_eq_true, decide_eq_true_eq, decide_eq_true_eq] at h
  unfold pyCharLower
  rw [if_neg]
  omega

theorem digitcheck_pyLower_ne (s : String) (h : digitcheck s = true)
    (c : Char) (cs : List Char)
    (hdig : isDig c = false) (hdot : c ≠ '.') (hdash : c ≠ '-') :
    pyLower s ≠ ⟨c :: cs⟩ := by
  intro heq
  have hdata : s.data.map pyCharLower = c :: cs := congrArg String.data heq
  cases hsd : s.data with
  | nil => rw [hsd] at hdata; exact absurd hdata (by simp)
  | cons c0 rest0 =>
      rw [hsd] at hdata
      simp only [List.map_cons, List.cons.injEq] at hdata
      obtain ⟨hc0, -⟩ := hdata
      have hmem : c0 ∈ s.data := by rw [hsd]; exact List.mem_cons_self _ _
      rcases digitcheck_chars s h c0 hmem with hd | hP | hM
      · rw [pyCharLower_digit c0 hd] at hc0
        rw [hc0] at hd
        rw [hd] at hdig
        exact absurd hdig (by simp)
      · rw [hP] at hc0
        have hcd : c = '.' := by rw [← hc0]; rfl
        exact hdot hcd
      · rw [hM] at hc0
        have hcd : c = '-' := by rw [← hc0]; rfl
        exact hdash hcd

theorem pyIsClose_self (a t : ℚ) (ht : 0 ≤ t) : pyIsClose a a t = true := by
  unfold pyIsClose
  rw [decide_eq_true_eq]
  have h0 : |a - a| = 0 := by simp
  rw [h0]
  exact le_max_of_le_right ht

theorem identical_implies_equal_bool (b : Bool) (v : Value)
    (hvtrim : ∀ t, v = vStr t → pyStrip t = t)
    (hid : compare_values (vBool b) v true 0 false true = .ok true) :
    compare_values (vBool b) v false (1/1000000) true false = .ok true := by
  cases v with
  | vNull =>
      simp [compare_values, try_boolean_comparison, strict_convert_boolean,
        safe_convert_to_number, asNum, pyEq, bind, Except.bind] at hid
  | vBool y =>
      simp [compare_values, try_boolean_comparison, strict_convert_boolean] at hid ⊢
      exact hid
  | vNum q =>
      simp only [compare_values, try_boolean_comparison, strict_convert_boolean,
        safe_convert_to_number, asNum, bind, Except.bind] at hid ⊢
      simp only [if_true, Bool.false_eq_true, if_false, Except.ok.injEq,
        decide_eq_true_eq] at hid ⊢
      rw [← hid]
      exact pyIsClose_self _ (1/1000000) (by norm_num)
  | vList l =>
      simp [compare_values, try_boolean_comparison, strict_convert_boolean,
        safe_convert_to_number, asNum, pyEq, bind, Except.bind] at hid
  | vDict d =>
      simp [compare_values, try_boolean_comparison, strict_convert_boolean,
        safe_convert_to_number, asNum, pyEq, bind, Except.bind] at hid
  | vStr t =>
      have htr : pyStrip t = t := hvtrim t rfl
      by_cases h1 : pyLower t = "true"
      · simp only [compare_values, try_boolean_comparison, strict_convert_boolean,
          htr, h1, if_true] at hid ⊢
        exact hid
      · by_cases h2 : pyLower t = "false"
        · simp [compare_values, try_boolean_comparison, strict_convert_boolean,
            htr, h1, h2] at hid ⊢
          exact hid
        · by_cases hdc : digitcheck t = true
          · cases hp : pyFloatParse t with
            | none =>
                simp [compare_values, try_boolean_comparison, strict_convert_boolean,
                  safe_convert_to_number, htr, h1, h2, hdc, hp, bind, Except.bind] at hid
            | some q =>
                have hyes : ¬ (pyLower t = "yes") := by
                  intro hx
                  exact digitcheck_pyLower_ne t hdc 'y' ['e', 's'] (by decide)
                    (by decide) (by decide) hx
                have hno : ¬ (pyLower t = "no") := by
                  intro hx
                  exact digitcheck_pyLower_ne t hdc 'n' ['o'] (by decide)
                    (by decide) (by decide) hx
                simp only [compare_values, try_boolean_comparison, strict_convert_boolean,
                  convert_revit_boolean, safe_convert_to_number, asNum, htr, h1, h2,
                  hyes, hno, hdc, hp, if_true, if_false, bind, Except.bind] at hid ⊢
                simp only [Bool.false_eq_true, if_false, Except.ok.injEq,
                  decide_eq_true_eq] at hid ⊢
                rw [← hid]
                exact pyIsClose_self _ (1/1000000) (by norm_num)
          · simp [compare_values, try_boolean_comparison, strict_convert_boolean,
              safe_convert_to_number, asNum, pyEq, htr, h1, h2, hdc, bind, Except.bind] at hid

theorem identical_implies_equal_num (q0 : ℚ) (v : Value)
    (hvtrim : ∀ t, v = vStr t → pyStrip t = t)
    (hid : compare_values (vNum q0) v true 0 false true = .ok true) :
    compare_values (vNum q0) v false (1/1000000) true false = .ok true := by
  cases v with
  | vNull =>
      simp [compare_values, try_boolean_comparison, strict_convert_boolean,
        safe_convert_to_number, asNum, pyEq, bind, Except.bind] at hid
  | vBool y =>
      simp only [compare_values, try_boolean_comparison, strict_convert_boolean,
        safe_convert_to_number, asNum, bind, Except.bind] at hid ⊢
      simp only [if_true, Bool.false_eq_true, if_false, Except.ok.injEq,
        decide_eq_true_eq] at hid ⊢
      rw [hid]
      exact pyIsClose_self _ (1/1000000) (by norm_num)
  | vNum q =>
      simp only [compare_values, try_boolean_comparison, strict_convert_boolean,
        safe_convert_to_number, asNum, bind, Except.bind] at hid ⊢
      simp only [if_true, Bool.false_eq_true, if_false, Except.ok.injEq,
        decide_eq_true_eq] at hid ⊢
      rw [hid]
      exact pyIsClose_self _ (1/1000000) (by norm_num)
  | vList l =>
      simp [compare_values, try_boolean_comparison, strict_convert_boolean,
        safe_convert_to_number, asNum, pyEq, bind, Except.bind] at hid
  | vDict d =>
      simp [compare_values, try_boolean_comparison, strict_convert_boolean,
        safe_convert_to_number, asNum, pyEq, bind, Except.bind] at hid
  | vStr t =>
      have htr : pyStrip t = t := hvtrim t rfl
      by_cases hdct : digitcheck t = true
      · cases hp : pyFloatParse t with
        | none =>
            simp [compare_values, try_boolean_comparison, strict_convert_boolean,
              safe_convert_to_number, htr, hdct, hp, bind, Except.bind] at hid
        | some q =>
            simp only [compare_values, try_boolean_comparison, strict_convert_boolean,
              safe_convert_to_number, asNum, htr, hdct, hp, if_true, bind,
              Except.bind] at hid ⊢
            simp only [if_true, Bool.false_eq_true, if_false, Except.ok.injEq,
              decide_eq_true_eq] at hid ⊢
            rw [hid]
            exact pyIsClose_self _ (1/1000000) (by norm_num)
      · simp [compare_values, try_boolean_comparison, strict_convert_boolean,
          safe_convert_to_number, asNum, pyEq, htr, hdct, bind, Except.bind] at hid

theorem convert_revit_vStr_ne_null (s : String) :
    convert_revit_boolean (vStr s) ≠ vNull := by
  simp only [convert_revit_boolean]
  split_ifs <;> simp

theorem identical_implies_equal_str (s : String) (v : Value)
    (hstrim : pyStrip s = s)
    (hvtrim : ∀ t, v = vStr t → pyStrip t = t)
    (hid : compare_values (vStr s) v true 0 false true = .ok true) :
    compare_values (convert_revit_boolean (vStr s)) v false (1/1000000) true false
      = .ok true := by
  by_cases hy : pyLower s = "yes"
  case pos =>
    -- stored value coerces to the boolean true on the non-raw read
    have ht : ¬ pyLower s = "true" := by rw [hy]; decide
    have hf : ¬ pyLower s = "false" := by rw [hy]; decide
    have hdcs : digitcheck s = false := by
      cases h : digitcheck s with
      | false => rfl
      | true =>
          exact absurd hy (digitcheck_pyLower_ne s h 'y' ['e', 's'] (by decide)
            (by decide) (by decide))
    have hcr : convert_revit_boolean (vStr s) = vBool true := by
      simp [convert_revit_boolean, hy]
    rw [hcr]
    cases v with
    | vNull =>
        simp [compare_values, try_boolean_comparison, strict_convert_boolean,
          safe_convert_to_number, asNum, pyEq, hstrim, ht, hf, hdcs, bind, Except.bind] at hid
    | vBool y =>
        simp [compare_values, try_boolean_comparison, strict_convert_boolean,
          safe_convert_to_number, asNum, pyEq, hstrim, ht, hf, hdcs, bind, Except.bind] at hid
    | vNum q =>
        simp [compare_values, try_boolean_comparison, strict_convert_boolean,
          safe_convert_to_number, asNum, pyEq, hstrim, ht, hf, hdcs, bind, Except.bind] at hid
    | vList l =>
        simp [compare_values, try_boolean_comparison, strict_convert_boolean,
          safe_convert_to_number, asNum, pyEq, hstrim, ht, hf, hdcs, bind, Except.bind] at hid
    | vDict d =>
        simp [compare_values, try_boolean_comparison, strict_convert_boolean,
          safe_convert_to_number, asNum, pyEq, hstrim, ht, hf, hdcs, bind, Except.bind] at hid
    | vStr t =>
        have htr : pyStrip t = t := hvtrim t rfl
        by_cases hdct : digitcheck t = true
        · cases hp : pyFloatParse t with
          | none =>
              simp [compare_values, try_boolean_comparison, strict_convert_boolean,
                safe_convert_to_number, asNum, pyEq, hstrim, htr, ht, hf, hdcs, hdct,
                hp, bind, Except.bind] at hid
          | some q =>
              simp [compare_values, try_boolean_comparison, strict_convert_boolean,
                safe_convert_to_number, asNum, pyEq, hstrim, htr, ht, hf, hdcs, hdct,
                hp, bind, Except.bind] at hid
        · -- both strings: case-sensitive equality forces t = s
          have hst : s = t := by
            simp [compare_values, try_boolean_comparison, strict_convert_boolean,
              safe_convert_to_number, asNum, pyEq, hstrim, htr, ht, hf, hdcs, hdct,
              bind, Except.bind] at hid
            exact hid
          subst hst
          simp [compare_values, try_boolean_comparison, strict_convert_boolean,
            convert_revit_boolean, hstrim, ht, hf, hy]
  case neg =>
  by_cases hn : pyLower s = "no"
  case pos =>
    have ht : ¬ pyLower s = "true" := by rw [hn]; decide
    have hf : ¬ pyLower s = "false" := by rw [hn]; decide
    have hdcs : digitcheck s = false := by
      cases h : digitcheck s with
      | false => rfl
      | true =>
          exact absurd hn (digitcheck_pyLower_ne s h 'n' ['o'] (by decide)
            (by decide) (by decide))
    have hcr : convert_revit_boolean (vStr s) = vBool false := by
      simp [convert_revit_boolean, hy, hn]
    rw [hcr]
    cases v with
    | vNull =>
        simp [compare_values, try_boolean_comparison, strict_convert_boolean,
          safe_convert_to_number, asNum, pyEq, hstrim, ht, hf, hdcs, bind, Except.bind] at hid
    | vBool y =>
        simp [compare_values, try_boolean_comparison, strict_convert_boolean,
          safe_convert_to_number, asNum, pyEq, hstrim, ht, hf, hdcs, bind, Except.bind] at hid
    | vNum q =>
        simp [compare_values, try_boolean_comparison, strict_convert_boolean,
          safe_convert_to_number, asNum, pyEq, hstrim, ht, hf, hdcs, bind, Except.bind] at hid
    | vList l =>
        simp [compare_values, try_boolean_comparison, strict_convert_boolean,
          safe_convert_to_number, asNum, pyEq, hstrim, ht, hf, hdcs, bind, Except.bind] at hid
    | vDict d =>
        simp [compare_values, try_boolean_comparison, strict_convert_boolean,
          safe_convert_to_number, asNum, pyEq, hstrim, ht, hf, hdcs, bind, Except.bind] at hid
    | vStr t =>
        have htr : pyStrip t = t := hvtrim t rfl
        by_cases hdct : digitcheck t = true
        · cases hp : pyFloatParse t with
          | none =>
              simp [compare_values, try_boolean_comparison, strict_convert_boolean,
                safe_convert_to_number, asNum, pyEq, hstrim, htr, ht, hf, hdcs, hdct,
                hp, bind, Except.bind] at hid
          | some q =>
              simp [compare_values, try_boolean_comparison, strict_convert_boolean,
                safe_convert_to_number, asNum, pyEq, hstrim, htr, ht, hf, hdcs, hdct,
                hp, bind, Except.bind] at hid
        · have hst : s = t := by
            simp [compare_values, try_boolean_comparison, strict_convert_boolean,
              safe_convert_to_number, asNum, pyEq, hstrim, htr, ht, hf, hdcs, hdct,
              bind, Except.bind] at hid
            exact hid
          subst hst
          simp [compare_values, try_boolean_comparison, strict_convert_boolean,
            convert_revit_boolean, hstrim, ht, hf, hy, hn]
  case neg =>
  have hcr : convert_revit_boolean (vStr s) = vStr s := by
    simp [convert_revit_boolean, hy, hn]
  rw [hcr]
  by_cases hT : pyLower s = "true"
  · -- the stored string converts to a boolean in both comparisons
    have hdcs : digitcheck s = false := by
      cases h : digitcheck s with
      | false => rfl
      | true =>
          exact absurd hT (digitcheck_pyLower_ne s h 't' ['r', 'u', 'e'] (by decide)
            (by decide) (by decide))
    cases v with
    | vNull =>
        simp [compare_values, try_boolean_comparison, strict_convert_boolean,
          safe_convert_to_number, asNum, pyEq, hstrim, hT, hdcs, bind, Except.bind] at hid
    | vBool y =>
        simp only [compare_values, try_boolean_comparison, strict_convert_boolean,
          hstrim, hT, if_true] at hid ⊢
        exact hid
    | vNum q =>
        simp [compare_values, try_boolean_comparison, strict_convert_boolean,
          safe_convert_to_number, asNum, pyEq, hstrim, hT, hdcs, bind, Except.bind] at hid
    | vList l =>
        simp [compare_values, try_boolean_comparison, strict_convert_boolean,
          safe_convert_to_number, asNum, pyEq, hstrim, hT, hdcs, bind, Except.bind] at hid
    | vDict d =>
        simp [compare_values, try_boolean_comparison, strict_convert_boolean,
          safe_convert_to_number, asNum, pyEq, hstrim, hT, hdcs, bind, Except.bind] at hid
    | vStr t =>
        have htr : pyStrip t = t := hvtrim t rfl
        by_cases hTt : pyLower t = "true"
        · simp only [compare_values, try_boolean_comparison, strict_convert_boolean,
            hstrim, htr, hT, hTt, if_true] at hid ⊢
          exact hid
        · by_cases hFt : pyLower t = "false"
          · simp [compare_values, try_boolean_comparison, strict_convert_boolean,
              hstrim, htr, hT, hTt, hFt] at hid
          · by_cases hdct : digitcheck t = true
            · cases hp : pyFloatParse t with
              | none =>
                  simp [compare_values, try_boolean_comparison, strict_convert_boolean,
                    safe_convert_to_number, asNum, pyEq, hstrim, htr, hT, hTt, hFt,
                    hdcs, hdct, hp, bind, Except.bind] at hid
              | some q =>
                  simp [compare_values, try_boolean_comparison, strict_convert_boolean,
                    safe_convert_to_number, asNum, pyEq, hstrim, htr, hT, hTt, hFt,
                    hdcs, hdct, hp, bind, Except.bind] at hid
            · have hst : s = t := by
                simp [compare_values, try_boolean_comparison, strict_convert_boolean,
                  safe_convert_to_number, asNum, pyEq, hstrim, htr, hT, hTt, hFt,
                  hdcs, hdct, bind, Except.bind] at hid
                exact hid
              exact absurd (hst ▸ hT) hTt
  · by_cases hF : pyLower s = "false"
    · have hdcs : digitcheck s = false := by
        cases h : digitcheck s with
        | false => rfl
        | true =>
            exact absurd hF (digitcheck_pyLower_ne s h 'f' ['a', 'l', 's', 'e']
              (by decide) (by decide) (by decide))
      cases v with
      | vNull =>
          simp [compare_values, try_boolean_comparison, strict_convert_boolean,
            safe_convert_to_number, asNum, pyEq, hstrim, hT, hF, hdcs, bind, Except.bind] at hid
      | vBool y =>
          simp only [compare_values, try_boolean_comparison, strict_convert_boolean,
            hstrim, hT, hF, if_true, Bool.false_eq_true, if_false] at hid ⊢
          exact hid
      | vNum q =>
          simp [compare_values, try_boolean_comparison, strict_convert_boolean,
            safe_convert_to_number, asNum, pyEq, hstrim, hT, hF, hdcs, bind, Except.bind] at hid
      | vList l =>
          simp [compare_values, try_boolean_comparison, strict_convert_boolean,
            safe_convert_to_number, asNum, pyEq, hstrim, hT, hF, hdcs, bind, Except.bind] at hid
      | vDict d =>
          simp [compare_values, try_boolean_comparison, strict_convert_boolean,
            safe_convert_to_number, asNum, pyEq, hstrim, hT, hF, hdcs, bind, Except.bind] at hid
      | vStr t =>
          have htr : pyStrip t = t := hvtrim t rfl
          by_cases hTt : pyLower t = "true"
          · simp [compare_values, try_boolean_comparison, strict_convert_boolean,
              hstrim, htr, hT, hF, hTt] at hid
          · by_cases hFt : pyLower t = "false"
            · simp only [compare_values, try_boolean_comparison, strict_convert_boolean,
                hstrim, htr, hT, hF, hTt, hFt, if_true, Bool.false_eq_true,
                if_false] at hid ⊢
              exact hid
            · by_cases hdct : digitcheck t = true
              · cases hp : pyFloatParse t with
                | none =>
                    simp [compare_values, try_boolean_comparison, strict_convert_boolean,
                      safe_convert_to_number, asNum, pyEq, hstrim, htr, hT, hF, hTt,
                      hFt, hdcs, hdct, hp, bind, Except.bind] at hid
                | some q =>
                    simp [compare_values, try_boolean_comparison, strict_convert_boolean,
                      safe_convert_to_number, asNum, pyEq, hstrim, htr, hT, hF, hTt,
                      hFt, hdcs, hdct, hp, bind, Except.bind] at hid
              · have hst : s = t := by
                  simp [compare_values, try_boolean_comparison, strict_convert_boolean,
                    safe_convert_to_number, asNum, pyEq, hstrim, htr, hT, hF, hTt, hFt,
                    hdcs, hdct, bind, Except.bind] at hid
                  exact hid
                exact absurd (hst ▸ hF) hFt
    · -- the stored string is not boolean-like on either side
      by_cases hdcs : digitcheck s = true
      · cases hps : pyFloatParse s with
        | none =>
            simp [compare_values, try_boolean_comparison, strict_convert_boolean,
              safe_convert_to_number, hstrim, hT, hF, hdcs, hps, bind, Except.bind] at hid
        | some qs =>
            cases v with
            | vNull =>
                simp [compare_values, try_boolean_comparison, strict_convert_boolean,
                  safe_convert_to_number, asNum, pyEq, hstrim, hT, hF, hdcs, hps,
                  bind, Except.bind] at hid
            | vBool y =>
                simp only [compare_values, try_boolean_comparison, strict_convert_boolean,
                  convert_revit_boolean, safe_convert_to_number, asNum, hstrim, hy, hn,
                  hT, hF, hdcs, hps, if_true, Bool.false_eq_true, if_false, bind,
                  Except.bind] at hid ⊢
                simp only [Except.ok.injEq, decide_eq_true_eq] at hid ⊢
                rw [hid]
                exact pyIsClose_self _ (1/1000000) (by norm_num)
            | vNum q =>
                simp only [compare_values, try_boolean_comparison, strict_convert_boolean,
                  convert_revit_boolean, safe_convert_to_number, asNum, hstrim, hy, hn,
                  hT, hF, hdcs, hps, if_true, Bool.false_eq_true, if_false, bind,
                  Except.bind] at hid ⊢
                simp only [Except.ok.injEq, decide_eq_true_eq] at hid ⊢
                rw [hid]
                exact pyIsClose_self _ (1/1000000) (by norm_num)
            | vList l =>
                simp [compare_values, try_boolean_comparison, strict_convert_boolean,
                  safe_convert_to_number, asNum, pyEq, hstrim, hT, hF, hdcs, hps,
                  bind, Except.bind] at hid
            | vDict d =>
                simp [compare_values, try_boolean_comparison, strict_convert_boolean,
                  safe_convert_to_number, asNum, pyEq, hstrim, hT, hF, hdcs, hps,
                  bind, Except.bind] at hid
            | vStr t =>
                have htr : pyStrip t = t := hvtrim t rfl
                by_cases hdct : digitcheck t = true
                · cases hp : pyFloatParse t with
                  | none =>
                      simp [compare_values, try_boolean_comparison, strict_convert_boolean,
                        safe_convert_to_number, asNum, pyEq, hstrim, htr, hT, hF, hdcs,
                        hps, hdct, hp, bind, Except.bind] at hid
                  | some qt =>
                      simp only [compare_values, try_boolean_comparison,
                        strict_convert_boolean, convert_revit_boolean,
                        safe_convert_to_number, asNum, hstrim, hy, hn,
                        htr, hT, hF, hdcs, hps, hdct, hp, if_true, Bool.false_eq_true,
                        if_false, bind, Except.bind] at hid ⊢
                      simp only [Except.ok.injEq, decide_eq_true_eq] at hid ⊢
                      rw [hid]
                      exact pyIsClose_self _ (1/1000000) (by norm_num)
                · simp [compare_values, try_boolean_comparison, strict_convert_boolean,
                    safe_convert_to_number, asNum, pyEq, hstrim, htr, hT, hF, hdcs, hps,
                    hdct, bind, Except.bind] at hid
      · cases v with
        | vNull =>
            simp [compare_values, try_boolean_comparison, strict_convert_boolean,
              safe_convert_to_number, asNum, pyEq, hstrim, hT, hF, hdcs,
              bind, Except.bind] at hid
        | vBool y =>
            simp [compare_values, try_boolean_comparison, strict_convert_boolean,
              safe_convert_to_number, asNum, pyEq, hstrim, hT, hF, hdcs,
              bind, Except.bind] at hid
        | vNum q =>
            simp [compare_values, try_boolean_comparison, strict_convert_boolean,
              safe_convert_to_number, asNum, pyEq, hstrim, hT, hF, hdcs,
              bind, Except.bind] at hid
        | vList l =>
            simp [compare_values, try_boolean_comparison, strict_convert_boolean,
              safe_convert_to_number, asNum, pyEq, hstrim, hT, hF, hdcs,
              bind, Except.bind] at hid
        | vDict d =>
            simp [compare_values, try_boolean_comparison, strict_convert_boolean,
              safe_convert_to_number, asNum, pyEq, hstrim, hT, hF, hdcs,
              bind, Except.bind] at hid
        | vStr t =>
            have htr : pyStrip t = t := hvtrim t rfl
            by_cases hdct : digitcheck t = true
            · cases hp : pyFloatParse t with
              | none =>
                  simp [compare_values, try_boolean_comparison, strict_convert_boolean,
                    safe_convert_to_number, asNum, pyEq, hstrim, htr, hT, hF, hdcs,
                    hdct, hp, bind, Except.bind] at hid
              | some qt =>
                  simp [compare_values, try_boolean_comparison, strict_convert_boolean,
                    safe_convert_to_number, asNum, pyEq, hstrim, htr, hT, hF, hdcs,
                    hdct, hp, bind, Except.bind] at hid
            · have hst : s = t := by
                simp [compare_values, try_boolean_comparison, strict_convert_boolean,
                  safe_convert_to_number, asNum, pyEq, hstrim, htr, hT, hF, hdcs, hdct,
                  bind, Except.bind] at hid
                exact hid
              subst hst
              simp [compare_values, try_boolean_comparison, strict_convert_boolean,
                convert_revit_boolean, safe_convert_to_number, asNum, pyEq, hstrim,
                hT, hF, hy, hn, hdcs, bind, Except.bind]

/-- C4 (counterexample): the implication `is_identical_value ⟹
is_equal_value` fails. First scenario: parameter stored as the string
`"Yes"`, match value `" Yes"` — identical compares the stripped strings
case-sensitively (true) while equal coerces the stored value to boolean
`True`, which never equals a string (false). Second scenario: parameter
stored as the record `{"value": "Yes"}` with the record itself as match
value — identical compares the raw record structurally (true) while equal
extracts and coerces the inner value to `True` (false). -/
theorem C4_counterexample :
    (is_identical_value objYes "p" (vStr " Yes") = .ok true ∧
     is_equal_value objYes "p" (vStr " Yes") false (1/1000000) = .ok false) ∧
    (is_identical_value objRec "p" recordYes = .ok true ∧
     is_equal_value objRec "p" recordYes false (1/1000000) = .ok false) :=
  ⟨⟨rfl, rfl⟩, ⟨rfl, rfl⟩⟩

/-- C4 (amended): `is_identical_value` implies `is_equal_value` when the
raw stored value is primitive (not a record, whose `value` member only the
equal side extracts) and neither the stored string nor the match value
carries surrounding whitespace (which only the equal side's boolean
coercion fails to strip); the converse still fails (stored `"Yes"` equals
boolean `true` loosely but is not identical to it). -/
theorem C4_amended :
    (∀ (obj : Value) (path : String) (v r : Value),
        find_property obj path true = some r →
        isPrimValue r = true →
        (∀ s, r = vStr s → pyStrip s = s) →
        (∀ t, v = vStr t → pyStrip t = t) →
        is_identical_value obj path v = .ok true →
        is_equal_value obj path v false (1/1000000) = .ok true) ∧
    (is_equal_value objYes "p" (vBool true) false (1/1000000) = .ok true ∧
     is_identical_value objYes "p" (vBool true) = .ok false) := by
  refine ⟨?_, rfl, rfl⟩
  intro obj path v r hfind hprim hrtrim hvtrim hid
  have hgpT : get_parameter_value obj path true = r := by
    rw [get_parameter_value, hfind]
    rfl
  simp only [is_identical_value, hgpT] at hid
  by_cases hrn : r = vNull
  · rw [if_pos hrn] at hid
    exact absurd hid (by simp)
  · rw [if_neg hrn] at hid
    have hgpF : get_parameter_value obj path false = get_obj_value r false := by
      rw [get_parameter_value, find_property_raw, hfind]
      rfl
    cases r with
    | vNull => exact absurd rfl hrn
    | vList l => exact absurd hprim (by simp [isPrimValue])
    | vDict d => exact absurd hprim (by simp [isPrimValue])
    | vBool b =>
        have h1 := identical_implies_equal_bool b v hvtrim hid
        simp only [is_equal_value, hgpF, get_obj_value, convert_revit_boolean]
        simpa using h1
    | vNum q =>
        have h1 := identical_implies_equal_num q v hvtrim hid
        simp only [is_equal_value, hgpF, get_obj_value, convert_revit_boolean]
        simpa using h1
    | vStr s =>
        have h1 := identical_implies_equal_str s v (hrtrim s rfl) hvtrim hid
        have h2 := convert_revit_vStr_ne_null s
        simp only [is_equal_value, hgpF]
        rw [show get_obj_value (vStr s) false = convert_revit_boolean (vStr s) from rfl]
        rw [if_neg h2]
        exact h1

/-- C4 (witness): the amended implication at a concrete element with a
plain string parameter. -/
theorem C4_amended_witness :
    is_equal_value objWalls "category" (vStr "Walls") false (1/1000000) = .ok true :=
  C4_amended.1 objWalls "category" (vStr "Walls") (vStr "Walls") rfl rfl
    (fun s h => by cases h; rfl) (fun t h => by cases h; rfl) rfl

/-! ## Claim C8 -/

/-- C8 (counterexample): a row whose `Report Severity` cell is `None` (not
in the accepted set, so the claim demands `Error`) but whose legacy
`Severity` column holds `Warning` resolves to WARNING: the source falls
back with `rule_info.get("Report Severity") or rule_info.get("Severity")`. -/
theorem C8_counterexample :
    rowC8.reportSeverity = some vNull ∧
    get_severity rowC8 = SeverityLevel.WARNING ∧
    SeverityLevel.WARNING ≠ SeverityLevel.ERROR :=
  ⟨rfl, rfl, by decide⟩

/-- Membership in the recognized severity names, after strip + uppercase. -/
def severityRecognized (s : String) : Prop :=
  pyUpper (pyStrip s) ∈ (["INFO", "WARNING", "ERROR", "WARN"] : List String)

instance (s : String) : Decidable (severityRecognized s) := by
  unfold severityRecognized; infer_instance

/-- C8 (amended): severity resolution first applies the fallback
`Report Severity or Severity` (the `Severity` column is consulted whenever
`Report Severity` is missing or falsy, e.g. `None` or empty); the resolved
value then maps: `Warn` (trimmed, case-insensitive) to Warning, and any
non-string or unrecognized value to Error. In particular, on a row with no
`Severity` fallback, any `Report Severity` outside
{Info, Warning, Error, Warn} — including `None` and non-strings — maps to
Error, as the claim states. -/
theorem C8_amended :
    (∀ (r : Row) (s : String), resolved_severity r = vStr s →
        pyUpper (pyStrip s) = "WARN" → get_severity r = .WARNING) ∧
    (∀ (r : Row), (∀ s, resolved_severity r = vStr s → ¬ severityRecognized s) →
        get_severity r = .ERROR) ∧
    (∀ (r : Row), r.severityAlt = none →
        (∀ s, r.reportSeverity = some (vStr s) → ¬ severityRecognized s) →
        get_severity r = .ERROR) := by
  refine ⟨?_, ?_, ?_⟩
  · intro r s hres hwarn
    rw [get_severity, hres]
    simp [hwarn]
  · intro r h
    rw [get_severity]
    cases hres : resolved_severity r with
    | vStr s =>
        have hns := h s hres
        simp only [severityRecognized, List.mem_cons, List.not_mem_nil, or_false,
          not_or] at hns
        obtain ⟨h1, h2, h3, h4⟩ := hns
        simp [h1, h2, h3, h4]
    | vNull => rfl
    | vBool b => rfl
    | vNum q => rfl
    | vList l => rfl
    | vDict d => rfl
  · intro r halt h
    rw [get_severity]
    cases hrs : r.reportSeverity with
    | none =>
        simp [resolved_severity, hrs, halt, pyGetOpt, pyTruthy]
    | some v =>
        have hres : resolved_severity r = if pyTruthy v then v else vNull := by
          simp [resolved_severity, hrs, halt, pyGetOpt]
        by_cases ht : pyTruthy v = true
        · rw [hres]
          simp only [ht, if_true]
          cases v with
          | vStr s =>
              have hns := h s (by rw [hrs])
              simp only [severityRecognized, List.mem_cons, List.not_mem_nil, or_false,
                not_or] at hns
              obtain ⟨h1, h2, h3, h4⟩ := hns
              simp [h1, h2, h3, h4]
          | vNull => rfl
          | vBool b => rfl
          | vNum q => rfl
          | vList l => rfl
          | vDict d => rfl
        · rw [hres]
          simp only [ht, if_false]
          rfl

/-- C8 (witness): the amended statement at concrete rows — `" warn "`
resolves to WARNING via the alias, `Critical` and a numeric severity
resolve to ERROR. -/
theorem C8_amended_witness :
    get_severity rowWarnNoise = SeverityLevel.WARNING ∧
    get_severity rowCritical = SeverityLevel.ERROR ∧
    get_severity ⟨vNull, "", "", "", vNull, vNull, some (vNum 3), none⟩
      = SeverityLevel.ERROR := by
  refine ⟨C8_amended.1 rowWarnNoise " warn " rfl rfl, ?_, ?_⟩
  · exact C8_amended.2.2 rowCritical rfl
      (by intro s h; injection h with h2; injection h2 with h3; subst h3; decide)
  · exact C8_amended.2.2 ⟨vNull, "", "", "", vNull, vNull, some (vNum 3), none⟩ rfl
      (by intro s h; injection h with h2; exact Value.noConfusion h2)

/-! ## Claim C9 -/

/-- C9: for a non-empty failing set, `attach_results` emits exactly one
result attachment whose level is WARNING iff the capitalized
`Report Severity` string is `Warning` or `Warn`, and ERROR in every other
case (so a failing rule declared `Info` is attached at ERROR level). -/
theorem C9_attach_level (objs : List Value) (r : Row) (rid : String) (s : String)
    (ids : List Value)
    (hobjs : ¬ objs.isEmpty)
    (hsev : r.reportSeverity = some (vStr s))
    (hids : collect_object_ids objs = .ok ids) :
    attach_results objs r rid false =
      .ok [⟨"Rule " ++ rid, ids, format_message r,
            some (if pyCapitalize s = "Warning" ∨ pyCapitalize s = "Warn"
              then ObjectResultLevel.WARNING else ObjectResultLevel.ERROR),
            get_metadata rid r false objs⟩] := by
  rw [attach_results]
  simp [hobjs, hsev, hids, bind, Except.bind]

/-- C9 (witness): a failing rule with declared severity `Info` is attached
at ERROR level, and one with `WARNING` at WARNING level. -/
theorem C9_attach_level_witness :
    attach_results [objId] rowInfo "7" false
      = .ok [⟨"Rule 7", [vStr "o1"], "msg", some ObjectResultLevel.ERROR,
              get_metadata "7" rowInfo false [objId]⟩] := by
  have h := C9_attach_level [objId] rowInfo "7" "Info" [vStr "o1"] (by decide) rfl rfl
  rw [h]
  rfl

/-! ## Claim C10 -/

/-- C10: a condition whose `Predicate` is not a key of
`PREDICATE_METHOD_MAP` evaluates to `false` for every element, without
raising: `evaluate_condition` falls through to its final `return False`. -/
theorem C10_unknown_predicate_false (obj : Value) (c : Row)
    (h : predicateLookup c.predicate = none) :
    evaluate_condition obj c = .ok false := by
  rw [evaluate_condition, h]

/-- C10 (witness): a condition with the unknown predicate name
`frobnicate` evaluates to `false` on `objWalls`. -/
theorem C10_unknown_predicate_false_witness :
    evaluate_condition objWalls ⟨vNull, "WHERE", "category", "frobnicate",
      vStr "Walls", vNull, none, none⟩ = .ok false :=
  C10_unknown_predicate_false objWalls _ rfl

end SpeckleChecker
